import Mathlib

/-!
Verification of the Entitlement Reconciliation Engine of the
`area-membros-vip` server (`src/server.js`).

The embedding below translates the relevant handlers into pure Lean
functions over an explicit database state:

* `webhook`            — `POST /webhook/perfectpay` (lines 702-837)
* `checkAccess`        — `POST /api/check-access` (lines 840-884)
* `userProductsRoute`  — `POST /api/user/products` (lines 539-699)
* `apiProducts`        — `GET /api/products` (lines 262-331)
* `parseGalleryString` — the gallery_json parse shared verbatim by the two
                         product routes (lines 286-317 and 607-639)

SQLite tables become lists of rows; `db.get ... LIMIT 1` becomes `head?` of
the corresponding filter; `INSERT` appends a row and bumps the autoincrement
counter.  JavaScript string truthiness (`undefined` and `""` are falsy) is
modelled by `strTruthy` on `Option String`.
-/

/-- JavaScript truthiness of an optional string field: `undefined`/`null`
and the empty string are falsy, every other string is truthy. -/
def strTruthy : Option String → Bool
  | none => false
  | some s => !(s == "")

/-- Row of the `products` table (`CREATE TABLE products`, lines 61-78).
Fields not consulted by any verified handler logic (description, banner_url,
main_video, access_url, buy_url, price, timestamps) are carried opaquely as
strings where needed and omitted where no claim reads them. -/
structure Product where
  id : Nat
  name : String
  category : String
  plano_1 : Option String
  plano_2 : Option String
  plano_3 : Option String
deriving DecidableEq, Repr

/-- Row of the `product_media` table (lines 81-91). -/
structure MediaRow where
  product_id : Nat
  type : String
  url : String
  order_index : Nat
deriving DecidableEq, Repr

/-- Row of the `user_access` table (lines 94-108).  `sale_amount` (REAL) and
the other pass-through payload fields are carried as opaque optional
strings; no handler computes with them. -/
structure Grant where
  id : Nat
  email : String
  product_code : String
  plan_code : String
  plan_name : Option String
  sale_amount : Option String
  payment_id : Option String
  status : String
deriving DecidableEq, Repr

/-- The SQLite database state: the three tables plus the autoincrement
counter for `user_access.id` (AUTOINCREMENT starts at 1). -/
structure DB where
  products : List Product
  product_media : List MediaRow
  user_access : List Grant
  next_access_id : Nat
deriving DecidableEq, Repr

/-- The PerfectPay webhook payload after destructuring (lines 710-717):
`sale_status_enum_key`, `customer?.email`, `plan?.code`, `plan?.name`,
`code` (renamed `sale_code`), `sale_amount`.  Absent fields are `none`. -/
structure Payload where
  sale_status_enum_key : Option String
  customer_email : Option String
  plan_code : Option String
  plan_name : Option String
  sale_code : Option String
  sale_amount : Option String
deriving DecidableEq, Repr

/-- `SELECT * FROM products WHERE plano_1 = ? OR plano_2 = ? OR plano_3 = ?
LIMIT 1` (lines 751-755).  SQL `=` against a NULL column is not a match,
hence comparison with `some pc`. -/
def findProductByPlan (db : DB) (pc : String) : Option Product :=
  db.products.find? fun p =>
    p.plano_1 == some pc || p.plano_2 == some pc || p.plano_3 == some pc

/-- The active `user_access` rows for an (email, plan_code) pair, in table
order — the rows satisfying the WHERE clause of the webhook `checkQuery`
(lines 768-773). -/
def activeFor (db : DB) (e pc : String) : List Grant :=
  db.user_access.filter fun g =>
    g.email == e && g.plan_code == pc && g.status == "active"

/-- `SELECT * FROM user_access WHERE email = ? AND plan_code = ? AND
status = 'active' ORDER BY created_at DESC LIMIT 1`: some matching row if one
exists.  (The `ORDER BY` picks the newest; which row is returned is
irrelevant to every claim, so the model returns the first in table order.) -/
def findActiveGrant (db : DB) (e pc : String) : Option Grant :=
  (activeFor db e pc).head?

/-- Number of active grants for an (email, plan_code) pair. -/
def countActive (db : DB) (e pc : String) : Nat :=
  (activeFor db e pc).length

/-- `product_row?.id || plan_code` (line 765): the grant's product reference
is the resolved product's id, falling back to the raw plan code when no
product resolves (or when the id is falsy, i.e. 0). -/
def productCodeFor (db : DB) (pc : String) : String :=
  match findProductByPlan db pc with
  | some pr => if pr.id = 0 then pc else toString pr.id
  | none => pc

/-- The `INSERT INTO user_access ... VALUES (?,?,?,?,?,?, 'active',
CURRENT_TIMESTAMP)` of lines 793-806: append a fresh active row, return the
new row id (`this.lastID`). -/
def insertGrant (db : DB) (email product_code plan_code : String)
    (plan_name sale_amount payment_id : Option String) : DB × Nat :=
  let g : Grant :=
    { id := db.next_access_id, email := email, product_code := product_code,
      plan_code := plan_code, plan_name := plan_name,
      sale_amount := sale_amount, payment_id := payment_id,
      status := "active" }
  ({ db with user_access := db.user_access ++ [g],
             next_access_id := db.next_access_id + 1 }, g.id)

/-- Responses of the webhook route. -/
inductive WebhookResp where
  /-- `{success:true, message:'Status não processado'}` (line 729). -/
  | statusNotProcessed
  /-- HTTP 400 `{success:false, error:'Email e código do plano são
  obrigatórios'}` (lines 742-746). -/
  | missingFields
  /-- `{success:true, message:'Acesso já existente', access_id}`
  (lines 783-788). -/
  | alreadyExists (access_id : Nat)
  /-- `{success:true, message:'Acesso liberado com sucesso', access_id,
  plan, email, plan_code}` (lines 819-827). -/
  | granted (access_id : Nat) (plan : Option String) (email plan_code : String)
deriving DecidableEq, Repr

/-- Local variables captured by the webhook handler before it issues its
write: everything the handler read from the payload and from the store.
`existing` is the result of the `db.get checkQuery` read (lines 768-775). -/
structure WebhookLocals where
  email : String
  plan_code : String
  product_code : String
  plan_name : Option String
  sale_amount : Option String
  sale_code : Option String
  existing : Option Grant
deriving DecidableEq, Repr

/-- Read phase of `POST /webhook/perfectpay` (lines 707-775): status check,
field validation, product resolution (`db.get query`) and the idempotency
check (`db.get checkQuery`).  All of these only read the store.  An `error`
result is a handler exit with no write phase. -/
def webhookPhase1 (db : DB) (p : Payload) : Except WebhookResp WebhookLocals :=
  if p.sale_status_enum_key ≠ some "approved" then
    .error .statusNotProcessed
  else if !(strTruthy p.customer_email && strTruthy p.plan_code) then
    .error .missingFields
  else
    let email := p.customer_email.getD ""
    let plan_code := p.plan_code.getD ""
    .ok { email := email, plan_code := plan_code,
          product_code := productCodeFor db plan_code,
          plan_name := p.plan_name, sale_amount := p.sale_amount,
          sale_code := p.sale_code,
          existing := findActiveGrant db email plan_code }

/-- Write phase of the webhook (lines 780-828): if the earlier check found
an active grant, answer `alreadyExists` without touching the store,
otherwise run the `insertQuery`. -/
def webhookPhase2 (db : DB) (l : WebhookLocals) : DB × WebhookResp :=
  match l.existing with
  | some g => (db, .alreadyExists g.id)
  | none =>
    let (db', gid) := insertGrant db l.email l.product_code l.plan_code
      l.plan_name l.sale_amount l.sale_code
    (db', .granted gid l.plan_name l.email l.plan_code)

/-- One complete sequential execution of `POST /webhook/perfectpay`. -/
def webhook (db : DB) (p : Payload) : DB × WebhookResp :=
  match webhookPhase1 db p with
  | .error r => (db, r)
  | .ok l => webhookPhase2 db l

/-- Two concurrent deliveries of the same payload, interleaved so that both
handlers execute their read phase (`db.get checkQuery`) against the same
initial store before either runs its write phase — the schedule
check₁, check₂, insert₁, insert₂.  Each phase is atomic at the store level;
the handlers interleave only between phases, exactly as the two separate
`db.get` / `db.run` calls of the source allow. -/
def raceSamePayload (db : DB) (p : Payload) : DB :=
  match webhookPhase1 db p, webhookPhase1 db p with
  | .ok l1, .ok l2 => (webhookPhase2 (webhookPhase2 db l1).1 l2).1
  | .ok l1, .error _ => (webhookPhase2 db l1).1
  | .error _, .ok l2 => (webhookPhase2 db l2).1
  | .error _, .error _ => db

/-- The empty freshly-created database. -/
def emptyDB : DB :=
  { products := [], product_media := [], user_access := [], next_access_id := 1 }

/-- The spec's example payload: `{sale_status_enum_key:"approved",
customer:{email:"a@b.com"}, plan:{code:"P1", name:"Gold"},
sale_amount:99.9, code:"PAY1"}`. -/
def samplePayload : Payload :=
  { sale_status_enum_key := some "approved", customer_email := some "a@b.com",
    plan_code := some "P1", plan_name := some "Gold",
    sale_code := some "PAY1", sale_amount := some "99.9" }

/-- The grant row the webhook inserts for an approved, valid, not-yet-granted
delivery: fresh autoincrement id, the extracted email and plan code, the
resolved product reference, payload pass-through fields, status `active`. -/
def grantOf (db : DB) (p : Payload) (e pc : String) : Grant :=
  { id := db.next_access_id, email := e, product_code := productCodeFor db pc,
    plan_code := pc, plan_name := p.plan_name, sale_amount := p.sale_amount,
    payment_id := p.sale_code, status := "active" }

/-- The database after the webhook's insert. -/
def afterInsert (db : DB) (p : Payload) (e pc : String) : DB :=
  { db with user_access := db.user_access ++ [grantOf db p e pc],
            next_access_id := db.next_access_id + 1 }

/-- A complete payload whose status is `"pending"`. -/
def pendingPayload : Payload :=
  { samplePayload with sale_status_enum_key := some "pending" }

/-- A product whose `plano_1` is `"P1"`. -/
def prod7 : Product :=
  { id := 7, name := "Pack Premium", category := "mais_vendidos",
    plano_1 := some "P1", plano_2 := none, plano_3 := none }

/-- A catalog holding one product whose `plano_1` is `"P1"`. -/
def catalogDB : DB :=
  { products := [prod7], product_media := [], user_access := [],
    next_access_id := 1 }

/-- An approved payload carrying no customer object at all. -/
def noEmailPayload : Payload :=
  { samplePayload with customer_email := none }

/-! ## JSON values and `JSON.parse`

The gallery parse calls `JSON.parse` on each re-wrapped fragment.  The
parser below is a standard recursive-descent JSON reader (objects, arrays,
strings with escapes, numbers, literals, whitespace) that succeeds exactly
on complete well-formed JSON texts, mirroring `JSON.parse`'s accept/reject
behaviour on the fragments the gallery code produces.  Numbers are kept as
their raw numeral text — no handler computes with them.  Recursive descent
is paced by a fuel argument large enough for any input of the given
length. -/

inductive Json where
  | jnull
  | jbool (b : Bool)
  | jnum (raw : String)
  | jstr (s : String)
  | jarr (xs : List Json)
  | jobj (fields : List (String × Json))

/-- Hexadecimal digit value, for `\u` escapes. -/
def hexVal (c : Char) : Option Nat :=
  if '0' ≤ c ∧ c ≤ '9' then some (c.toNat - '0'.toNat)
  else if 'a' ≤ c ∧ c ≤ 'f' then some (c.toNat - 'a'.toNat + 10)
  else if 'A' ≤ c ∧ c ≤ 'F' then some (c.toNat - 'A'.toNat + 10)
  else none

/-- Consume a leading run of decimal digits. -/
def takeDigits : List Char → List Char × List Char
  | [] => ([], [])
  | c :: cs =>
    if c.isDigit then
      let (ds, r) := takeDigits cs
      (c :: ds, r)
    else ([], c :: cs)

/-- Skip JSON whitespace. -/
def skipWs : List Char → List Char
  | [] => []
  | c :: cs =>
    if c = ' ' || c = '\t' || c = '\n' || c = '\r' then skipWs cs
    else c :: cs

/-- Parse the body of a JSON string literal (opening quote already
consumed), handling the escape sequences `JSON.parse` accepts and rejecting
raw control characters and unterminated literals. -/
def pStr (fuel : Nat) (acc : List Char) (cs : List Char) :
    Option (String × List Char) :=
  match fuel, cs with
  | 0, _ => none
  | _, [] => none
  | f + 1, c :: cs =>
    if c = '"' then some (String.mk acc.reverse, cs)
    else if c = '\\' then
      match cs with
      | [] => none
      | e :: cs' =>
        if e = '"' then pStr f ('"' :: acc) cs'
        else if e = '\\' then pStr f ('\\' :: acc) cs'
        else if e = '/' then pStr f ('/' :: acc) cs'
        else if e = 'b' then pStr f (Char.ofNat 8 :: acc) cs'
        else if e = 'f' then pStr f (Char.ofNat 12 :: acc) cs'
        else if e = 'n' then pStr f ('\n' :: acc) cs'
        else if e = 'r' then pStr f ('\r' :: acc) cs'
        else if e = 't' then pStr f ('\t' :: acc) cs'
        else if e = 'u' then
          match cs' with
          | h1 :: h2 :: h3 :: h4 :: cs'' =>
            match hexVal h1, hexVal h2, hexVal h3, hexVal h4 with
            | some a, some b, some c2, some d =>
              pStr f (Char.ofNat (((a * 16 + b) * 16 + c2) * 16 + d) :: acc) cs''
            | _, _, _, _ => none
          | _ => none
        else none
    else if c.toNat < 32 then none
    else pStr f (c :: acc) cs

/-- Parse a JSON number (strict grammar: optional minus, no leading zeros,
optional fraction and exponent each requiring at least one digit). -/
def pNum (cs : List Char) : Option (Json × List Char) :=
  let (sign, cs1) :=
    match cs with
    | '-' :: r => ((['-'] : List Char), r)
    | _ => (([] : List Char), cs)
  let (intDs, r1) := takeDigits cs1
  if intDs.isEmpty then none
  else if intDs.length > 1 && intDs.headD '0' = '0' then none
  else
    let fracRes : Option (List Char × List Char) :=
      match r1 with
      | '.' :: rf =>
        let (ds, rr) := takeDigits rf
        if ds.isEmpty then none else some ('.' :: ds, rr)
      | _ => some ([], r1)
    match fracRes with
    | none => none
    | some (fracDs, r2) =>
      let expRes : Option (List Char × List Char) :=
        match r2 with
        | e :: re =>
          if e = 'e' ∨ e = 'E' then
            let (sgn2, re2) :=
              match re with
              | '+' :: rr => ((['+'] : List Char), rr)
              | '-' :: rr => ((['-'] : List Char), rr)
              | _ => (([] : List Char), re)
            let (ds, rr) := takeDigits re2
            if ds.isEmpty then none else some (e :: (sgn2 ++ ds), rr)
          else some ([], r2)
        | [] => some ([], r2)
      match expRes with
      | none => none
      | some (expDs, r3) =>
        some (.jnum (String.mk (sign ++ intDs ++ fracDs ++ expDs)), r3)

mutual

/-- Parse one JSON value. -/
def pVal : Nat → List Char → Option (Json × List Char)
  | 0, _ => none
  | f + 1, cs =>
    match skipWs cs with
    | [] => none
    | c :: rest =>
      if c = '{' then pObjBody f rest
      else if c = '[' then pArrBody f rest
      else if c = '"' then
        match pStr f [] rest with
        | some (s, r) => some (.jstr s, r)
        | none => none
      else if c = 't' then
        match rest with
        | 'r' :: 'u' :: 'e' :: r => some (.jbool true, r)
        | _ => none
      else if c = 'f' then
        match rest with
        | 'a' :: 'l' :: 's' :: 'e' :: r => some (.jbool false, r)
        | _ => none
      else if c = 'n' then
        match rest with
        | 'u' :: 'l' :: 'l' :: r => some (.jnull, r)
        | _ => none
      else pNum (c :: rest)

/-- Parse an object body (opening brace already consumed). -/
def pObjBody : Nat → List Char → Option (Json × List Char)
  | 0, _ => none
  | f + 1, cs =>
    match skipWs cs with
    | '}' :: r => some (.jobj [], r)
    | cs' => pMembers f [] cs'

/-- Parse the members of a non-empty object. -/
def pMembers : Nat → List (String × Json) → List Char →
    Option (Json × List Char)
  | 0, _, _ => none
  | f + 1, acc, cs =>
    match skipWs cs with
    | '"' :: r =>
      match pStr f [] r with
      | none => none
      | some (key, r1) =>
        match skipWs r1 with
        | ':' :: r2 =>
          match pVal f r2 with
          | none => none
          | some (v, r3) =>
            match skipWs r3 with
            | ',' :: r4 => pMembers f ((key, v) :: acc) r4
            | '}' :: r4 => some (.jobj ((key, v) :: acc).reverse, r4)
            | _ => none
        | _ => none
    | _ => none

/-- Parse an array body (opening bracket already consumed). -/
def pArrBody : Nat → List Char → Option (Json × List Char)
  | 0, _ => none
  | f + 1, cs =>
    match skipWs cs with
    | ']' :: r => some (.jarr [], r)
    | cs' => pElems f [] cs'

/-- Parse the elements of a non-empty array. -/
def pElems : Nat → List Json → List Char → Option (Json × List Char)
  | 0, _, _ => none
  | f + 1, acc, cs =>
    match pVal f cs with
    | none => none
    | some (v, r) =>
      match skipWs r with
      | ',' :: r2 => pElems f (v :: acc) r2
      | ']' :: r2 => some (.jarr (v :: acc).reverse, r2)
      | _ => none

end

/-- `JSON.parse` on a character sequence: one value, then nothing but
trailing whitespace. -/
def jsonParseL (cs : List Char) : Option Json :=
  match pVal (4 * cs.length + 8) cs with
  | some (j, rest) => if (skipWs rest).isEmpty then some j else none
  | none => none

/-! ## The Gallery Assembler

`GET /api/products` (lines 286-317) and `POST /api/user/products`
(lines 607-639) contain the identical gallery decode: split the
`GROUP_CONCAT` string on the three-character delimiter `},{`, re-attach the
braces the split consumed (first piece gets a trailing brace, last piece a
leading brace, middle pieces both; a lone piece is kept as is), `JSON.parse`
each piece inside a try/catch that yields null on failure, and drop the
nulls. -/

/-- Does the text start with the given character sequence? -/
def startsWithSeq : List Char → List Char → Bool
  | [], _ => true
  | _ :: _, [] => false
  | p :: ps, c :: cs => p = c && startsWithSeq ps cs

/-- Leftmost, non-overlapping split on a separator sequence, the semantics
of JavaScript `String.prototype.split` with a non-empty string separator. -/
def splitLoop (sep : List Char) : Nat → List Char → List Char →
    List (List Char) → List (List Char)
  | 0, cur, _, acc => (cur.reverse :: acc).reverse
  | f + 1, cur, cs, acc =>
    match cs with
    | [] => (cur.reverse :: acc).reverse
    | c :: cs' =>
      if startsWithSeq sep cs then
        splitLoop sep f [] (cs.drop sep.length) (cur.reverse :: acc)
      else
        splitLoop sep f (c :: cur) cs' acc

/-- `text.split(sep)` for a non-empty separator. -/
def splitOnSeq (sep cs : List Char) : List (List Char) :=
  splitLoop sep (cs.length + 1) [] cs []

/-- The `'},{'` delimiter of the gallery split (line 291 / 612). -/
def galleryDelim : List Char := ['}', ',', '{']

/-- `galleryString.split('},{')` followed by the index-dependent brace
re-attachment of lines 291-300 / 612-621. -/
def splitGalleryItems (cs : List Char) : List (List Char) :=
  let arr := splitOnSeq galleryDelim cs
  arr.mapIdx fun i item =>
    if arr.length > 1 then
      if i = 0 then item ++ ['}']
      else if i = arr.length - 1 then '{' :: item
      else '{' :: (item ++ ['}'])
    else item

/-- The per-item `JSON.parse` in a try/catch returning null, followed by
`filter(item => item !== null)` (lines 302-309 / 623-630). -/
def parseGalleryRaw (cs : List Char) : List Json :=
  (splitGalleryItems cs).filterMap jsonParseL

/-- The whole gallery decode of a row's `gallery_json` column: a falsy
column (SQL NULL or empty string) yields the empty gallery without
parsing. -/
def parseGalleryString : Option String → List Json
  | none => []
  | some s => if s = "" then [] else parseGalleryRaw s.toList

/-! ## The `gallery_json` column

`SELECT ... GROUP_CONCAT(json_object('type', pm.type, 'url', pm.url,
'order_index', pm.order_index) ORDER BY pm.order_index) as gallery_json`:
each media row serialized as a JSON object (SQLite escapes quote and
backslash inside string values; braces and commas inside values are NOT
escaped — the origin of the delimiter fragility), joined with `,`, NULL when
the product has no media. -/

/-- JSON string-value escaping as produced by SQLite `json_object` (quote
and backslash; control characters do not occur in the modelled rows). -/
def escapeChars : List Char → List Char
  | [] => []
  | c :: cs =>
    if c = '"' then '\\' :: '"' :: escapeChars cs
    else if c = '\\' then '\\' :: '\\' :: escapeChars cs
    else c :: escapeChars cs

/-- A JSON string literal for a value. -/
def jsonQuote (s : String) : String :=
  "\"" ++ String.mk (escapeChars s.toList) ++ "\""

/-- `json_object('type', pm.type, 'url', pm.url, 'order_index',
pm.order_index)` for one media row. -/
def serializeMediaJson (m : MediaRow) : String :=
  "\x7b\"type\":" ++ jsonQuote m.type ++ ",\"url\":" ++ jsonQuote m.url
    ++ ",\"order_index\":" ++ toString m.order_index ++ "\x7d"

/-- Stable insertion by ascending `order_index`. -/
def insertByOrder (m : MediaRow) : List MediaRow → List MediaRow
  | [] => [m]
  | x :: xs =>
    if m.order_index ≤ x.order_index then m :: x :: xs
    else x :: insertByOrder m xs

/-- Stable sort by ascending `order_index` (the `ORDER BY pm.order_index`
inside `GROUP_CONCAT`). -/
def sortByOrder : List MediaRow → List MediaRow
  | [] => []
  | x :: xs => insertByOrder x (sortByOrder xs)

/-- The media rows of a product, in gallery order. -/
def mediaFor (db : DB) (pid : Nat) : List MediaRow :=
  sortByOrder (db.product_media.filter fun m => m.product_id == pid)

/-- The `gallery_json` column value for a product: NULL without media. -/
def galleryJsonFor (db : DB) (pid : Nat) : Option String :=
  let ms := mediaFor db pid
  if ms.isEmpty then none
  else some (String.intercalate "," (ms.map serializeMediaJson))

/-! ## `GET /api/products` (lines 262-331) -/

/-- A product row as returned by `GET /api/products`: the row plus its
decoded gallery. -/
structure ApiProduct where
  base : Product
  gallery : List Json

/-- Response of `GET /api/products`. -/
structure ApiProductsResp where
  success : Bool
  products : List ApiProduct

/-- `GET /api/products`: every product with its decoded gallery, always a
success.  (The SQL `ORDER BY updated_at DESC, created_at DESC` is the
returned row order; the claims below do not depend on it, so `db.products`
is taken in row order.) -/
def apiProducts (db : DB) : ApiProductsResp :=
  { success := true,
    products := db.products.map fun p =>
      { base := p, gallery := parseGalleryString (galleryJsonFor db p.id) } }

/-! ## `POST /api/check-access` (lines 840-884) -/

/-- Responses of `POST /api/check-access`. -/
inductive CheckAccessResp where
  /-- HTTP 400 `{success:false}` when email or plan code is falsy
  (lines 845-847). -/
  | badRequest
  /-- `{success:true, hasAccess, access?}` (lines 865-882).  The source also
  joins a `product_name` onto the returned row; the existence of the row —
  all any claim consults — is unaffected by that LEFT JOIN. -/
  | result (hasAccess : Bool) (access : Option Grant)

/-- The `hasAccess` field of a check-access response (absent, hence false,
on the 400 error response). -/
def CheckAccessResp.hasAccess : CheckAccessResp → Bool
  | .badRequest => false
  | .result b _ => b

/-- `POST /api/check-access`: read-only lookup of an active grant for the
exact (email, plan_code) pair. -/
def checkAccess (db : DB) (email plano_code : Option String) :
    DB × CheckAccessResp :=
  if !(strTruthy email && strTruthy plano_code) then (db, .badRequest)
  else
    let row := findActiveGrant db (email.getD "") (plano_code.getD "")
    (db, .result row.isSome row)

/-! ## `POST /api/user/products` (lines 539-699) -/

/-- One processed product of the user-products response: the row, its
decoded gallery, the access flag and matched plan (lines 641-664), and the
category fields (the copy pushed into `userProducts` has its category forced
to `meus_produtos` and remembers the original, lines 667-675). -/
structure ProcessedProduct where
  base : Product
  gallery : List Json
  userHasAccess : Bool
  accessPlan : Option String
  category : String
  originalCategory : Option String

/-- The per-product access decision of lines 641-660: when the user holds
accesses, test the three plan slots in order `plano_1`, `plano_2`, `plano_3`
(a slot participates only when truthy) against the user's plan codes; the
first matching slot sets the flag and the matched plan value. -/
def computeAccess (userAccess : List Grant) (p : Product) :
    Bool × Option String :=
  if userAccess.length > 0 then
    let userPlanCodes := userAccess.map fun a => a.plan_code
    if strTruthy p.plano_1 && userPlanCodes.contains (p.plano_1.getD "") then
      (true, p.plano_1)
    else if strTruthy p.plano_2 && userPlanCodes.contains (p.plano_2.getD "") then
      (true, p.plano_2)
    else if strTruthy p.plano_3 && userPlanCodes.contains (p.plano_3.getD "") then
      (true, p.plano_3)
    else (false, none)
  else (false, none)

/-- Process one product row: decode the gallery, attach the access flag and
matched plan. -/
def processRow (ua : List Grant) (p : Product) (gj : Option String) :
    ProcessedProduct :=
  let ca := computeAccess ua p
  { base := p, gallery := parseGalleryString gj, userHasAccess := ca.1,
    accessPlan := ca.2, category := p.category, originalCategory := none }

/-- The `userProducts` copy of an owned product: category forced to
`meus_produtos`, original category remembered. -/
def overrideCat (pp : ProcessedProduct) : ProcessedProduct :=
  { pp with category := "meus_produtos", originalCategory := some pp.category }

/-- The `accessQuery` of lines 557-562: the user's active `user_access`
rows.  (`SELECT DISTINCT plan_code, plan_name, created_at` dedups exact
duplicate triples; membership in the resulting plan-code list — all the
route consults — is unchanged by that dedup, so the plain filter stands in
for it.) -/
def userAccessOf (db : DB) (e : String) : List Grant :=
  db.user_access.filter fun g => g.email == e && g.status == "active"

/-- Response of `POST /api/user/products`.  `activePlans` is `none` on the
missing-email response, which carries no such field. -/
structure UserProductsResp where
  success : Bool
  products : List ProcessedProduct
  userProducts : List ProcessedProduct
  activePlans : Option (List String)
  message : Option String

/-- `POST /api/user/products`: on a falsy email, answer success with empty
`products` and `userProducts` (lines 546-554); otherwise process every
product against the user's active accesses and collect the owned ones. -/
def userProductsRoute (db : DB) (email : Option String) : UserProductsResp :=
  if strTruthy email then
    let e := email.getD ""
    let ua := userAccessOf db e
    let processed := db.products.map fun p =>
      processRow ua p (galleryJsonFor db p.id)
    { success := true, products := processed,
      userProducts := (processed.filter fun pp => pp.userHasAccess).map overrideCat,
      activePlans := some (ua.map fun a => a.plan_code),
      message := none }
  else
    { success := true, products := [], userProducts := [],
      activePlans := none, message := some "Email é obrigatório" }

/-! ## Spec-side matching formula (refinement reference for C4) -/

/-- Modelled from the spec: a plan slot matches when its value is a member
of the email's granted plan codes (`plan_k ∈ grantedPlans`); an empty slot
never matches. -/
def specSlotMatches (plans : List String) : Option String → Bool
  | none => false
  | some v => plans.contains v

/-- Modelled from the spec: `has_access = (plan_1 ∈ grantedPlans) or
(plan_2 ∈ grantedPlans) or (plan_3 ∈ grantedPlans)` (§4.5). -/
def specHasAccess (plans : List String) (p : Product) : Bool :=
  specSlotMatches plans p.plano_1 || specSlotMatches plans p.plano_2 ||
    specSlotMatches plans p.plano_3

/-! ## Concrete fixtures -/

/-- An active grant for ("u@e.com","A"). -/
def gA : Grant :=
  { id := 1, email := "u@e.com", product_code := "A", plan_code := "A",
    plan_name := none, sale_amount := none, payment_id := none,
    status := "active" }

/-- An active grant for ("u@e.com","X"). -/
def gX : Grant :=
  { id := 2, email := "u@e.com", product_code := "X", plan_code := "X",
    plan_name := none, sale_amount := none, payment_id := none,
    status := "active" }

/-- A product whose `plano_1` is "A" and `plano_2` is "X". -/
def prodAX : Product :=
  { id := 3, name := "Curso AX", category := "cursos",
    plano_1 := some "A", plano_2 := some "X", plano_3 := none }

/-- A product whose only populated slot is `plano_2 = "X"`. -/
def prodX2 : Product :=
  { id := 4, name := "Curso X", category := "cursos",
    plano_1 := none, plano_2 := some "X", plano_3 := none }

/-- Catalog with `prodAX`; the user holds active grants for both "A" and
"X". -/
def dbC4 : DB :=
  { products := [prodAX], product_media := [], user_access := [gA, gX],
    next_access_id := 3 }

/-- Catalog with `prodX2`; the user holds an active grant for "X" only. -/
def dbC4w : DB :=
  { products := [prodX2], product_media := [], user_access := [gX],
    next_access_id := 3 }

/-- An active grant for ("a@b.com","P1"). -/
def grantActive : Grant :=
  { id := 1, email := "a@b.com", product_code := "P1", plan_code := "P1",
    plan_name := some "Gold", sale_amount := some "99.9",
    payment_id := some "PAY1", status := "active" }

/-- A revoked grant for ("a@b.com","P2"). -/
def grantRevoked : Grant :=
  { id := 2, email := "a@b.com", product_code := "P2", plan_code := "P2",
    plan_name := none, sale_amount := none, payment_id := none,
    status := "revoked" }

/-- Store holding one active and one revoked grant. -/
def checkDB : DB :=
  { products := [], product_media := [],
    user_access := [grantActive, grantRevoked], next_access_id := 3 }

/-- A well-formed serialized gallery item (ordinal 0). -/
def goodItem1 : String :=
  "\x7b\"type\":\"image\",\"url\":\"u1\",\"order_index\":0\x7d"

/-- A corrupt gallery item: the `url` value is missing, so `JSON.parse`
rejects it; it contains no `},{` delimiter of its own. -/
def corruptItem : String :=
  "\x7b\"type\":\"image\",\"url\":\x7d"

/-- A well-formed serialized gallery item (ordinal 2). -/
def goodItem3 : String :=
  "\x7b\"type\":\"video\",\"url\":\"u3\",\"order_index\":2\x7d"

/-- Three concatenated items, the middle one corrupt. -/
def resilienceGallery : String :=
  goodItem1 ++ "," ++ corruptItem ++ "," ++ goodItem3

/-- A well-formed item whose `url` value contains the `},{` delimiter
(`a},{b`). -/
def delimItem : String :=
  "\x7b\"type\":\"image\",\"url\":\"a\x7d,\x7bb\",\"order_index\":1\x7d"

/-- Three concatenated items, the middle one carrying a delimiter inside its
`url` value. -/
def delimGallery : String :=
  goodItem1 ++ "," ++ delimItem ++ "," ++ goodItem3

/-- The decoded form of `goodItem1`. -/
def goodJson1 : Json :=
  .jobj [("type", .jstr "image"), ("url", .jstr "u1"),
         ("order_index", .jnum "0")]

/-- The decoded form of `goodItem3`. -/
def goodJson3 : Json :=
  .jobj [("type", .jstr "video"), ("url", .jstr "u3"),
         ("order_index", .jnum "2")]

-- Helper lemmas about the webhook phases.

theorem webhookPhase1_ok (db : DB) (p : Payload) (e pc : String)
    (happ : p.sale_status_enum_key = some "approved")
    (hem : p.customer_email = some e) (hene : e ≠ "")
    (hpl : p.plan_code = some pc) (hpne : pc ≠ "") :
    webhookPhase1 db p =
      .ok { email := e, plan_code := pc, product_code := productCodeFor db pc,
            plan_name := p.plan_name, sale_amount := p.sale_amount,
            sale_code := p.sale_code, existing := findActiveGrant db e pc } := by
  unfold webhookPhase1
  rw [happ, hem, hpl]
  simp [strTruthy, hene, hpne]

theorem activeFor_append (db : DB) (e pc : String) (g : Grant) (n : Nat)
    (hmatch : (g.email == e && g.plan_code == pc && g.status == "active") = true) :
    activeFor { db with user_access := db.user_access ++ [g],
                        next_access_id := n } e pc
      = activeFor db e pc ++ [g] := by
  simp only [activeFor, List.filter_append]
  simp [hmatch]

theorem webhook_inserts (db0 : DB) (p : Payload) (e pc : String)
    (happ : p.sale_status_enum_key = some "approved")
    (hem : p.customer_email = some e) (hene : e ≠ "")
    (hpl : p.plan_code = some pc) (hpne : pc ≠ "")
    (hclean : activeFor db0 e pc = []) :
    webhook db0 p =
      (afterInsert db0 p e pc,
       .granted db0.next_access_id p.plan_name e pc) := by
  have hfind0 : findActiveGrant db0 e pc = none := by
    simp [findActiveGrant, hclean]
  have h1 := webhookPhase1_ok db0 p e pc happ hem hene hpl hpne
  simp [webhook, h1, webhookPhase2, hfind0, insertGrant, grantOf, afterInsert]

theorem activeFor_afterInsert (db0 : DB) (p : Payload) (e pc : String) :
    activeFor (afterInsert db0 p e pc) e pc
      = activeFor db0 e pc ++ [grantOf db0 p e pc] := by
  unfold afterInsert
  exact activeFor_append db0 e pc _ _ (by simp [grantOf])

theorem webhook_skips (db1 : DB) (p : Payload) (e pc : String) (g : Grant)
    (happ : p.sale_status_enum_key = some "approved")
    (hem : p.customer_email = some e) (hene : e ≠ "")
    (hpl : p.plan_code = some pc) (hpne : pc ≠ "")
    (hfound : findActiveGrant db1 e pc = some g) :
    webhook db1 p = (db1, .alreadyExists g.id) := by
  have h1 := webhookPhase1_ok db1 p e pc happ hem hene hpl hpne
  simp [webhook, h1, webhookPhase2, hfound]

/-- C1: replaying the same approved payment event any number of times for a
fixed (email, plan_code) pair leaves exactly one active grant row: starting
from a store with no active grant for the pair, the first delivery inserts
one active grant, every later delivery leaves the whole store unchanged, and
the duplicate delivery is acknowledged as a success carrying the existing
grant's identifier. -/
theorem webhook_replay_idempotent (db0 : DB) (p : Payload) (e pc : String)
    (happ : p.sale_status_enum_key = some "approved")
    (hem : p.customer_email = some e) (hene : e ≠ "")
    (hpl : p.plan_code = some pc) (hpne : pc ≠ "")
    (hclean : activeFor db0 e pc = []) :
    countActive (webhook db0 p).1 e pc = 1 ∧
    (webhook (webhook db0 p).1 p).2
      = WebhookResp.alreadyExists db0.next_access_id ∧
    ∀ n : Nat, (fun d => (webhook d p).1)^[n] (webhook db0 p).1
      = (webhook db0 p).1 := by
  have hstep := webhook_inserts db0 p e pc happ hem hene hpl hpne hclean
  have hact1 : activeFor (afterInsert db0 p e pc) e pc = [grantOf db0 p e pc] := by
    rw [activeFor_afterInsert, hclean, List.nil_append]
  have hfind1 : findActiveGrant (afterInsert db0 p e pc) e pc
      = some (grantOf db0 p e pc) := by
    simp [findActiveGrant, hact1]
  have hstep2 : webhook (afterInsert db0 p e pc) p
      = (afterInsert db0 p e pc, .alreadyExists db0.next_access_id) := by
    have h := webhook_skips (afterInsert db0 p e pc) p e pc _ happ hem hene hpl
      hpne hfind1
    simpa [grantOf] using h
  refine ⟨?_, ?_, ?_⟩
  · rw [hstep]
    simp [countActive, hact1]
  · rw [hstep]
    rw [show (afterInsert db0 p e pc,
          WebhookResp.granted db0.next_access_id p.plan_name e pc).1
        = afterInsert db0 p e pc from rfl, hstep2]
  · intro n
    rw [hstep]
    exact Function.iterate_fixed (by simp [hstep2]) n

/-- C1 witness: the spec's example payload delivered twice to an empty
store: one active grant for ("a@b.com","P1") and the duplicate delivery
answers `alreadyExists 1`. -/
theorem webhook_replay_idempotent_witness :
    countActive (webhook emptyDB samplePayload).1 "a@b.com" "P1" = 1 ∧
    (webhook (webhook emptyDB samplePayload).1 samplePayload).2
      = WebhookResp.alreadyExists 1 := by
  have h := webhook_replay_idempotent emptyDB samplePayload "a@b.com" "P1"
    rfl rfl (by decide) rfl (by decide) rfl
  exact ⟨h.1, h.2.1⟩

/-- C2: evaluating the two-request race at a concrete input.  Two concurrent
deliveries of the spec's example payload, interleaved check₁, check₂,
insert₁, insert₂ — an interleaving the two separate `db.get`/`db.run` calls
of the source permit — end with TWO active grants for ("a@b.com","P1"),
while the sequential double delivery ends with one.  This refutes the
claim that the check-then-insert executes as a single atomic store
operation making a double active grant impossible. -/
theorem webhook_race_two_active_grants :
    countActive (raceSamePayload emptyDB samplePayload) "a@b.com" "P1" = 2 ∧
    countActive (webhook (webhook emptyDB samplePayload).1 samplePayload).1
      "a@b.com" "P1" = 1 := by
  constructor <;> rfl

/-- C5: a webhook payload whose approval-status field is present but not
equal to `"approved"` is acknowledged as a success and performs no writes:
the store is returned unchanged and the response is the
`Status não processado` success, regardless of the rest of the payload. -/
theorem webhook_nonapproved_noop (db : DB) (p : Payload) (s : String)
    (hs : p.sale_status_enum_key = some s) (hne : s ≠ "approved") :
    webhook db p = (db, .statusNotProcessed) := by
  unfold webhook webhookPhase1
  rw [hs]
  simp [hne]

/-- C5 witness: a complete `"pending"` payload against the sample catalog is
a successful no-op. -/
theorem webhook_nonapproved_noop_witness :
    webhook catalogDB pendingPayload
      = (catalogDB, WebhookResp.statusNotProcessed) :=
  webhook_nonapproved_noop catalogDB pendingPayload "pending" rfl (by decide)

/-- C6: an approved payload from which the customer email or the plan code
cannot be extracted (absent, or extracted as the empty string) fails with
the HTTP 400 `missingFields` client error and performs no writes. -/
theorem webhook_missing_fields (db : DB) (p : Payload)
    (happ : p.sale_status_enum_key = some "approved")
    (hmiss : p.customer_email = none ∨ p.customer_email = some ""
      ∨ p.plan_code = none ∨ p.plan_code = some "") :
    webhook db p = (db, .missingFields) := by
  unfold webhook webhookPhase1
  rw [happ]
  have hfalse : (strTruthy p.customer_email && strTruthy p.plan_code) = false := by
    rcases hmiss with h | h | h | h <;> rw [h] <;> simp [strTruthy]
  simp [hfalse]

/-- C6 witness: an approved payload without an email is rejected as a client
error with no write. -/
theorem webhook_missing_fields_witness :
    webhook catalogDB noEmailPayload = (catalogDB, WebhookResp.missingFields) :=
  webhook_missing_fields catalogDB noEmailPayload rfl (Or.inl rfl)

/-- C8: an approved, valid, not-yet-granted delivery always inserts exactly
one grant; its product reference is the raw plan code when no catalog
product declares the plan, and the resolved product's identifier when one
does. -/
theorem webhook_product_ref (db0 : DB) (p : Payload) (e pc : String)
    (happ : p.sale_status_enum_key = some "approved")
    (hem : p.customer_email = some e) (hene : e ≠ "")
    (hpl : p.plan_code = some pc) (hpne : pc ≠ "")
    (hclean : activeFor db0 e pc = []) :
    (webhook db0 p).1.user_access = db0.user_access ++ [grantOf db0 p e pc] ∧
    (grantOf db0 p e pc).status = "active" ∧
    (findProductByPlan db0 pc = none → (grantOf db0 p e pc).product_code = pc) ∧
    (∀ pr, findProductByPlan db0 pc = some pr → pr.id ≠ 0 →
      (grantOf db0 p e pc).product_code = toString pr.id) := by
  have hstep := webhook_inserts db0 p e pc happ hem hene hpl hpne hclean
  refine ⟨?_, rfl, ?_, ?_⟩
  · rw [hstep]
    rfl
  · intro h
    simp [grantOf, productCodeFor, h]
  · intro pr h hid
    simp [grantOf, productCodeFor, h, hid]

/-- C8 witness: against an empty catalog the inserted grant's product
reference is the raw plan code "P1"; against a catalog resolving "P1" to
product 7 it is "7". -/
theorem webhook_product_ref_witness :
    ((webhook emptyDB samplePayload).1.user_access.map fun g => g.product_code)
      = ["P1"] ∧
    ((webhook catalogDB samplePayload).1.user_access.map fun g => g.product_code)
      = ["7"] := by
  have h1 := webhook_product_ref emptyDB samplePayload "a@b.com" "P1"
    rfl rfl (by decide) rfl (by decide) rfl
  have h2 := webhook_product_ref catalogDB samplePayload "a@b.com" "P1"
    rfl rfl (by decide) rfl (by decide) rfl
  constructor
  · rw [h1.1]
    have hpc := h1.2.2.1 rfl
    have he : emptyDB.user_access = [] := rfl
    rw [he]
    simp [hpc]
  · rw [h2.1]
    have hpc := h2.2.2.2 prod7 rfl (by decide)
    have hc : catalogDB.user_access = [] := rfl
    have h7 : toString prod7.id = "7" := rfl
    rw [hc]
    simp [hpc, h7]

/-- C10: a webhook payload in which the approval-status field is entirely
absent is treated exactly like a non-approved event: acknowledged as a
successful no-op with no grant written, whatever the other fields hold. -/
theorem webhook_absent_status_noop (db : DB) (ce pc pn sc sa : Option String) :
    webhook db { sale_status_enum_key := none, customer_email := ce,
                 plan_code := pc, plan_name := pn, sale_code := sc,
                 sale_amount := sa }
      = (db, .statusNotProcessed) := rfl

theorem findActiveGrant_isSome (db : DB) (e pc : String) :
    (findActiveGrant db e pc).isSome = true ↔
      ∃ g ∈ db.user_access, g.email = e ∧ g.plan_code = pc ∧
        g.status = "active" := by
  unfold findActiveGrant activeFor
  constructor
  · intro h
    cases hh : db.user_access.filter
        (fun g => g.email == e && g.plan_code == pc && g.status == "active") with
    | nil => rw [hh] at h; simp at h
    | cons a t =>
      have ha : a ∈ db.user_access.filter
          (fun g => g.email == e && g.plan_code == pc && g.status == "active") := by
        rw [hh]; exact List.mem_cons_self a t
      have hmem := List.mem_filter.mp ha
      refine ⟨a, hmem.1, ?_⟩
      have hb := hmem.2
      simp only [Bool.and_eq_true, beq_iff_eq] at hb
      exact ⟨hb.1.1, hb.1.2, hb.2⟩
  · rintro ⟨g, hg, h1, h2, h3⟩
    have hmem : g ∈ db.user_access.filter
        (fun g => g.email == e && g.plan_code == pc && g.status == "active") :=
      List.mem_filter.mpr ⟨hg, by simp [h1, h2, h3]⟩
    cases hh : db.user_access.filter
        (fun g => g.email == e && g.plan_code == pc && g.status == "active") with
    | nil => rw [hh] at hmem; cases hmem
    | cons a t => rfl

/-- C7: for non-empty arguments, `check-access` answers `hasAccess = true`
exactly when the store holds an active grant for that exact
(email, plan_code) pair — revoked grants are read as non-active, grants for
other plans or emails never satisfy the check — and the store is returned
unchanged (the handler only reads). -/
theorem checkAccess_correct (db : DB) (e pc : String)
    (hene : e ≠ "") (hpne : pc ≠ "") :
    (checkAccess db (some e) (some pc)).1 = db ∧
    ((checkAccess db (some e) (some pc)).2.hasAccess = true ↔
      ∃ g ∈ db.user_access, g.email = e ∧ g.plan_code = pc ∧
        g.status = "active") := by
  have he : (e == "") = false := beq_eq_false_iff_ne.mpr hene
  have hp : (pc == "") = false := beq_eq_false_iff_ne.mpr hpne
  have hred : checkAccess db (some e) (some pc)
      = (db, .result (findActiveGrant db e pc).isSome (findActiveGrant db e pc)) := by
    unfold checkAccess
    simp [strTruthy, he, hp]
  rw [hred]
  exact ⟨rfl, by simpa [CheckAccessResp.hasAccess] using
    findActiveGrant_isSome db e pc⟩

/-- C7 witness: on a store with an active ("a@b.com","P1") grant and a
revoked ("a@b.com","P2") grant: access granted for the exact active pair,
denied for the revoked pair and for a different email, store unchanged. -/
theorem checkAccess_correct_witness :
    (checkAccess checkDB (some "a@b.com") (some "P1")).2.hasAccess = true ∧
    (checkAccess checkDB (some "a@b.com") (some "P2")).2.hasAccess = false ∧
    (checkAccess checkDB (some "x@y.com") (some "P1")).2.hasAccess = false ∧
    (checkAccess checkDB (some "a@b.com") (some "P1")).1 = checkDB := by
  have h1 := checkAccess_correct checkDB "a@b.com" "P1" (by decide) (by decide)
  have h2 := checkAccess_correct checkDB "a@b.com" "P2" (by decide) (by decide)
  have h3 := checkAccess_correct checkDB "x@y.com" "P1" (by decide) (by decide)
  refine ⟨h1.2.mpr (by decide), ?_, ?_, h1.1⟩
  · have hne : ¬ ∃ g ∈ checkDB.user_access, g.email = "a@b.com"
        ∧ g.plan_code = "P2" ∧ g.status = "active" := by decide
    exact Bool.eq_false_iff.mpr fun hcon => hne (h2.2.mp hcon)
  · have hne : ¬ ∃ g ∈ checkDB.user_access, g.email = "x@y.com"
        ∧ g.plan_code = "P1" ∧ g.status = "active" := by decide
    exact Bool.eq_false_iff.mpr fun hcon => hne (h3.2.mp hcon)

theorem slot_cond_eq (plans : List String) (slot : Option String)
    (hplans : ("" : String) ∉ plans) :
    (strTruthy slot && plans.contains (slot.getD ""))
      = specSlotMatches plans slot := by
  cases slot with
  | none => simp [strTruthy, specSlotMatches]
  | some v =>
    by_cases hv : v = ""
    · subst hv
      have hc : plans.contains "" = false := by
        cases hc : plans.contains "" with
        | false => rfl
        | true => exact absurd (List.elem_iff.mp hc) hplans
      simp only [strTruthy, specSlotMatches, hc, Option.getD_some]
      simp
    · have hb : (v == "") = false := beq_eq_false_iff_ne.mpr hv
      simp [strTruthy, specSlotMatches, hb]

theorem computeAccess_fst_eq_spec (ua : List Grant) (p : Product)
    (hplans : ("" : String) ∉ ua.map fun a => a.plan_code) :
    (computeAccess ua p).1 = specHasAccess (ua.map fun a => a.plan_code) p := by
  by_cases hua : ua = []
  · subst hua
    cases h1 : p.plano_1 <;> cases h2 : p.plano_2 <;> cases h3 : p.plano_3 <;>
      simp [computeAccess, specHasAccess, specSlotMatches, h1, h2, h3,
        List.contains, List.elem]
  · have hlen : ua.length > 0 := List.length_pos.mpr hua
    have e1 := slot_cond_eq (ua.map fun a => a.plan_code) p.plano_1 hplans
    have e2 := slot_cond_eq (ua.map fun a => a.plan_code) p.plano_2 hplans
    have e3 := slot_cond_eq (ua.map fun a => a.plan_code) p.plano_3 hplans
    rw [specHasAccess, ← e1, ← e2, ← e3]
    unfold computeAccess
    simp only [hlen, if_pos]
    cases hc1 : (strTruthy p.plano_1 &&
        (ua.map fun a => a.plan_code).contains (p.plano_1.getD "")) <;>
    cases hc2 : (strTruthy p.plano_2 &&
        (ua.map fun a => a.plan_code).contains (p.plano_2.getD "")) <;>
    cases hc3 : (strTruthy p.plano_3 &&
        (ua.map fun a => a.plan_code).contains (p.plano_3.getD "")) <;>
    simp [hc1, hc2, hc3]

theorem computeAccess_slot2 (ua : List Grant) (p : Product) (x : String)
    (hplans : ("" : String) ∉ ua.map fun a => a.plan_code)
    (h2 : p.plano_2 = some x)
    (hx : x ∈ ua.map fun a => a.plan_code)
    (h1 : specSlotMatches (ua.map fun a => a.plan_code) p.plano_1 = false) :
    computeAccess ua p = (true, some x) := by
  have hune : ua ≠ [] := by
    intro h
    subst h
    simp at hx
  have hlen : ua.length > 0 := List.length_pos.mpr hune
  have c1 : (strTruthy p.plano_1 &&
      (ua.map fun a => a.plan_code).contains (p.plano_1.getD "")) = false := by
    rw [slot_cond_eq _ _ hplans]
    exact h1
  have c2 : (strTruthy p.plano_2 &&
      (ua.map fun a => a.plan_code).contains (p.plano_2.getD "")) = true := by
    rw [slot_cond_eq _ _ hplans, h2]
    simp only [specSlotMatches]
    simpa using hx
  unfold computeAccess
  simp only [c1, c2]
  simp [hlen, h2]

/-- C4 (amended): the access flag of every returned product equals the
spec's disjunction of the three plan slots against the email's active plan
codes; products with a true flag are exactly the ones copied to
`userProducts` (with the category override); and the matched plan attached
is the value of the first matching slot in the order `plano_1`, `plano_2`,
`plano_3` — in particular, a product whose `plano_2` is "X" is reported
with matched plan "X" for an email granted "X" whenever `plano_1` does not
also match.  (Granted plan codes are non-empty, as the webhook validation
guarantees for every grant it writes.) -/
theorem userProducts_matching (db : DB) (e : String) (hene : e ≠ "")
    (hplans : ("" : String) ∉ (userAccessOf db e).map fun a => a.plan_code) :
    (∀ pp ∈ (userProductsRoute db (some e)).products,
        pp.userHasAccess
          = specHasAccess ((userAccessOf db e).map fun a => a.plan_code)
              pp.base) ∧
    ((userProductsRoute db (some e)).userProducts
       = ((userProductsRoute db (some e)).products.filter fun pp =>
           pp.userHasAccess).map overrideCat) ∧
    (∀ pp ∈ (userProductsRoute db (some e)).products, ∀ x : String,
        pp.base.plano_2 = some x →
        x ∈ (userAccessOf db e).map (fun a => a.plan_code) →
        specSlotMatches ((userAccessOf db e).map fun a => a.plan_code)
          pp.base.plano_1 = false →
        pp.userHasAccess = true ∧ pp.accessPlan = some x) := by
  have he : (e == "") = false := beq_eq_false_iff_ne.mpr hene
  have hroute : userProductsRoute db (some e)
      = { success := true,
          products := db.products.map fun p =>
            processRow (userAccessOf db e) p (galleryJsonFor db p.id),
          userProducts := ((db.products.map fun p =>
            processRow (userAccessOf db e) p (galleryJsonFor db p.id)).filter
              fun pp => pp.userHasAccess).map overrideCat,
          activePlans := some ((userAccessOf db e).map fun a => a.plan_code),
          message := none } := by
    unfold userProductsRoute
    simp [strTruthy, he]
  refine ⟨?_, ?_, ?_⟩
  · intro pp hpp
    rw [hroute] at hpp
    simp only [List.mem_map] at hpp
    obtain ⟨p, hp, rfl⟩ := hpp
    have hacc : (processRow (userAccessOf db e) p
        (galleryJsonFor db p.id)).userHasAccess
        = (computeAccess (userAccessOf db e) p).1 := rfl
    rw [hacc, computeAccess_fst_eq_spec _ _ hplans]
    rfl
  · rw [hroute]
  · intro pp hpp x h2 hx h1
    rw [hroute] at hpp
    simp only [List.mem_map] at hpp
    obtain ⟨p, hp, rfl⟩ := hpp
    have hca := computeAccess_slot2 (userAccessOf db e) p x hplans h2 hx h1
    constructor
    · show (computeAccess (userAccessOf db e) p).1 = true
      rw [hca]
    · show (computeAccess (userAccessOf db e) p).2 = some x
      rw [hca]

/-- C4 counterexample: the catalog product holds `plano_1 = "A"` and
`plano_2 = "X"`, and the email holds active grants for both "A" and "X".
The product is owned, but the matched plan attached is "A" — the value of
`plano_1`, the first matching slot — not the `plano_2` value "X" the claim
promises for any email granted "X". -/
theorem userProducts_slot_priority_counterexample :
    ((userProductsRoute dbC4 (some "u@e.com")).products.map fun pp =>
        pp.accessPlan) = [some "A"] ∧
    prodAX.plano_2 = some "X" ∧
    ((userProductsRoute dbC4 (some "u@e.com")).products.map fun pp =>
        pp.accessPlan) ≠ [prodAX.plano_2] :=
  ⟨rfl, rfl, by decide⟩

/-- C4 witness: the product whose only populated slot is `plano_2 = "X"`,
for the email holding the active "X" grant: owned, matched plan "X", and
the owned list is exactly the flagged products with the category
override. -/
theorem userProducts_matching_witness :
    ((processRow (userAccessOf dbC4w "u@e.com") prodX2
        (galleryJsonFor dbC4w prodX2.id)).userHasAccess = true ∧
      (processRow (userAccessOf dbC4w "u@e.com") prodX2
        (galleryJsonFor dbC4w prodX2.id)).accessPlan = some "X") ∧
    (userProductsRoute dbC4w (some "u@e.com")).userProducts
      = ((userProductsRoute dbC4w (some "u@e.com")).products.filter fun pp =>
          pp.userHasAccess).map overrideCat := by
  have h := userProducts_matching dbC4w "u@e.com" (by decide) (by decide)
  have hmem : processRow (userAccessOf dbC4w "u@e.com") prodX2
      (galleryJsonFor dbC4w prodX2.id)
      ∈ (userProductsRoute dbC4w (some "u@e.com")).products :=
    List.Mem.head _
  exact ⟨h.2.2 _ hmem "X" rfl (by decide) (by decide), h.2.1⟩

/-- C3 (amended): for an absent or empty email the user-products operation
does not fail: it answers success with an empty products list and an empty
owned-products list (no grant lookup is performed; the full catalog is NOT
included in the response). -/
theorem userProducts_missing_email (db : DB) :
    userProductsRoute db none
      = { success := true, products := [], userProducts := [],
          activePlans := none, message := some "Email é obrigatório" } ∧
    userProductsRoute db (some "")
      = { success := true, products := [], userProducts := [],
          activePlans := none, message := some "Email é obrigatório" } :=
  ⟨rfl, rfl⟩

/-- C3 counterexample: with one product in the catalog and an absent email
the route succeeds but returns an empty products list — not every catalog
product marked as not-owned, as the claim states. -/
theorem userProducts_missing_email_counterexample :
    (userProductsRoute catalogDB none).success = true ∧
    (userProductsRoute catalogDB none).products.length = 0 ∧
    catalogDB.products.length = 1 :=
  ⟨rfl, rfl, rfl⟩

set_option maxRecDepth 40000 in
/-- C9: the Gallery Assembler never escalates to a request failure — both
product routes answer success with one entry per catalog product for every
database — and on the spec's resilience scenarios: three concatenated
items with a corrupt middle item decode to exactly the two well-formed
neighbours (a two-item list, not an error and not an empty list), and a
middle item whose url value contains the `},{` delimiter is dropped without
corrupting either neighbouring item. -/
theorem gallery_resilience :
    (∀ db : DB, (apiProducts db).success = true ∧
      (apiProducts db).products.length = db.products.length ∧
      ∀ e : Option String, (userProductsRoute db e).success = true) ∧
    parseGalleryString (some resilienceGallery) = [goodJson1, goodJson3] ∧
    parseGalleryString (some delimGallery) = [goodJson1, goodJson3] := by
  refine ⟨?_, ?_, ?_⟩
  · intro db
    refine ⟨rfl, ?_, ?_⟩
    · simp [apiProducts]
    · intro e
      unfold userProductsRoute
      split <;> rfl
  · rfl
  · rfl

